import Mathlib

/-!
Shallow embedding of the generic database-access bridge of the SIH-ERP
repository (src/mcp-server/src/stdio-server.ts, with the identical helper in
src/mcp-server/src/index.ts lines 878-968), together with theorems settling
the frozen claims about its specification.

The embedding models:
* scalar values as they flow through the bridge (JS scalars incl. bigint);
* the dynamic SQL construction of `handleCrudOperation` (WHERE / SET /
  INSERT fragments with positional `$n` placeholders);
* the BigInt-to-string result serialization (the `JSON.stringify` replacer);
* the JSON-RPC session handler (`stdin.on("data", ...)`) with its error
  codes, response shape and tool dispatch.

The database itself is kept abstract: raw or typed statements produced by
the bridge are handed to a gateway oracle `gw : CrudAction → Except String
(List Row)` standing for `prisma.$queryRawUnsafe` / the typed
`prisma.subject.*` calls.
-/

namespace SihErp

/-- Scalar values as they appear in CRUD arguments and DB result rows.
`vNum` is a JS `number` (modelled on integral values), `vBigInt` a JS
`bigint` (how the driver surfaces 64-bit integer columns). -/
inductive Value where
  | vNull
  | vBool (b : Bool)
  | vNum (n : Int)
  | vStr (s : String)
  | vBigInt (n : Int)
deriving DecidableEq, Repr

/-- An insertion-ordered column→value mapping (`data` / `where` objects);
`Object.keys` / `Object.values` enumerate it in insertion order. -/
abbrev ConstraintSet := List (String × Value)

/-- A parameterized SQL statement as passed to `prisma.$queryRawUnsafe`:
the SQL text plus the ordered positional parameter list. -/
structure Statement where
  sql : String
  params : List Value
deriving DecidableEq, Repr

/-- What `handleCrudOperation` hands to the database layer: either one of the
typed `prisma.subject.*` fast-path calls (table `"subjects"`), or a raw
parameterized statement. -/
inductive CrudAction where
  | fastSelect (whereArg : Option ConstraintSet)
  | fastInsert (data : ConstraintSet)
  | fastUpdate (whereArg : Option ConstraintSet) (data : ConstraintSet)
  | fastDelete (whereArg : Option ConstraintSet)
  | raw (stmt : Statement)
deriving DecidableEq, Repr

/-- JS truthiness of a scalar, used by `data.createdAt || new Date()` and
`if (args.table)`. -/
def truthy : Value → Bool
  | .vNull => false
  | .vBool b => b
  | .vNum n => n != 0
  | .vStr s => s != ""
  | .vBigInt n => n != 0

/-- `x || d` on an optionally-present JS value (absent ⇒ `undefined` ⇒ falsy). -/
def jsOr : Option Value → Value → Value
  | some x, dflt => if truthy x then x else dflt
  | none, dflt => dflt

/-- First-match association lookup (JS property access on an object whose
keys are unique). -/
def lookupCS : ConstraintSet → String → Option Value
  | [], _ => none
  | p :: rest, k => if p.1 = k then some p.2 else lookupCS rest k

/-- JS object-literal update `{...m, k: v}`: if `k` is already a key its
value is replaced in place (insertion order kept), otherwise `(k, v)` is
appended at the end. -/
def setProp (m : ConstraintSet) (k : String) (v : Value) : ConstraintSet :=
  if (lookupCS m k).isSome then
    m.map (fun p => if p.1 = k then (k, v) else p)
  else
    m ++ [(k, v)]

/-- `{...data, createdAt: data.createdAt || new Date(), updatedAt:
data.updatedAt || new Date()}` from the `subjects` insert fast path
(stdio-server.ts lines 235-241); `now` stands for `new Date()`. -/
def withTimestamps (d : ConstraintSet) (now : Value) : ConstraintSet :=
  setProp (setProp d "createdAt" (jsOr (lookupCS d "createdAt") now))
    "updatedAt" (jsOr (lookupCS d "updatedAt") now)

/-- `Object.keys(m).map((key, i) => `${key} = $${off + i + 1}`)`: the
equality-term list shared by the WHERE builders (`off = 0` for
select/delete, `off = Object.keys(data).length` for update) and by the
update SET builder (`off = 0`). -/
def eqTerms (off : Nat) : ConstraintSet → List String
  | [] => []
  | p :: rest => (p.1 ++ " = $" ++ toString (off + 1)) :: eqTerms (off + 1) rest

/-- `where ? `WHERE ${...join(" AND ")}` : ""` — note a present-but-empty
object is truthy in JS, so `some []` yields the bare `"WHERE "`. -/
def whereClause (w : Option ConstraintSet) (off : Nat) : String :=
  match w with
  | none => ""
  | some c => "WHERE " ++ String.intercalate " AND " (eqTerms off c)

/-- `where ? Object.values(where) : []`. -/
def valuesOfOpt : Option ConstraintSet → List Value
  | none => []
  | some c => c.map Prod.snd

/-- `Object.keys(data).map((_, i) => `$${off + i + 1}`)` placeholder list for
INSERT (`n = Object.keys(data).length`). -/
def dollars (off n : Nat) : List String :=
  match n with
  | 0 => []
  | Nat.succ m => ("$" ++ toString (off + 1)) :: dollars (off + 1) m

/-- `case "select"` of `handleCrudOperation` (stdio-server.ts 218-231). -/
def crudSelect (table : String) (w : Option ConstraintSet) :
    Except String CrudAction :=
  if table = "subjects" then .ok (.fastSelect w)
  else .ok (.raw ⟨"SELECT * FROM " ++ table ++ " " ++ whereClause w 0,
    valuesOfOpt w⟩)

/-- `case "insert"` (stdio-server.ts 233-251). A missing `data` object makes
the JS code throw a `TypeError` (reading `data.createdAt`, resp.
`Object.keys(data)`), modelled as an `.error`. -/
def crudInsert (table : String) (d : Option ConstraintSet)
    (now : Value) : Except String CrudAction :=
  if table = "subjects" then
    match d with
    | none => .error "Cannot read properties of undefined (reading createdAt)"
    | some dd => .ok (.fastInsert (withTimestamps dd now))
  else
    match d with
    | none => .error "Cannot convert undefined or null to object"
    | some dd => .ok (.raw ⟨"INSERT INTO " ++ table ++ " ("
        ++ String.intercalate ", " (dd.map Prod.fst) ++ ") VALUES ("
        ++ String.intercalate ", " (dollars 0 dd.length) ++ ") RETURNING *",
        dd.map Prod.snd⟩)

/-- `case "update"` (stdio-server.ts 253-278): SET placeholders start at
`$1`, WHERE placeholders continue at `$(Object.keys(data).length + i + 1)`,
and the values are the SET values followed by the WHERE values. The subjects
fast path spreads `{...data, updatedAt: new Date()}` (spreading `undefined`
is legal in JS, hence `d.getD []`). -/
def crudUpdate (table : String) (d : Option ConstraintSet)
    (w : Option ConstraintSet) (now : Value) : Except String CrudAction :=
  if table = "subjects" then
    .ok (.fastUpdate w (setProp (d.getD []) "updatedAt" now))
  else
    match d with
    | none => .error "Cannot convert undefined or null to object"
    | some dd => .ok (.raw ⟨"UPDATE " ++ table ++ " SET "
        ++ String.intercalate ", " (eqTerms 0 dd) ++ " "
        ++ whereClause w dd.length ++ " RETURNING *",
        dd.map Prod.snd ++ valuesOfOpt w⟩)

/-- `case "delete"` (stdio-server.ts 280-293). -/
def crudDelete (table : String) (w : Option ConstraintSet) :
    Except String CrudAction :=
  if table = "subjects" then .ok (.fastDelete w)
  else .ok (.raw ⟨"DELETE FROM " ++ table ++ " " ++ whereClause w 0
      ++ " RETURNING *", valuesOfOpt w⟩)

/-- `operation.toLowerCase()`, mapped character-wise (the dispatcher only
compares against ASCII keywords). -/
def toLowerJS (s : String) : String := String.mk (s.data.map Char.toLower)

/-- `handleCrudOperation(operation, table, data, where)`
(stdio-server.ts 211-298; identical logic in index.ts 878-968). Dispatches
on `operation.toLowerCase()`; an unknown operation throws
`Unknown operation: ${operation}`. -/
def handleCrudOperation (operation table : String) (d w : Option ConstraintSet)
    (now : Value) : Except String CrudAction :=
  let op := toLowerJS operation
  if op = "select" then crudSelect table w
  else if op = "insert" then crudInsert table d now
  else if op = "update" then crudUpdate table d w now
  else if op = "delete" then crudDelete table w
  else .error ("Unknown operation: " ++ operation)

example : handleCrudOperation "update" "students" (some [("name", .vStr "x")])
    (some []) (.vStr "T")
    = .ok (.raw ⟨"UPDATE students SET name = $1 WHERE  RETURNING *",
      [.vStr "x"]⟩) := rfl

example : handleCrudOperation "select" "students" none none .vNull
    = .ok (.raw ⟨"SELECT * FROM students ", []⟩) := rfl

example : handleCrudOperation "delete" "students" none (some [("id", .vNum 3)])
    .vNull
    = .ok (.raw ⟨"DELETE FROM students WHERE id = $1 RETURNING *",
      [.vNum 3]⟩) := rfl

/-- A database result row: an ordered mapping from column name to value. -/
abbrev Row := List (String × Value)

/-- The replacer of `JSON.stringify(result, (key, value) => typeof value ===
"bigint" ? value.toString() : value)` (stdio-server.ts 135-139; the same
expression recurs as `serializedResult` in index.ts, e.g. lines 57-61):
every `bigint` becomes its decimal string, all other scalars pass through. -/
def serializeValue : Value → Value
  | .vBigInt n => .vStr (toString n)
  | v => v

/-- The replacer applied over one result row (column order preserved). -/
def serializeRow (r : Row) : Row := r.map (fun p => (p.1, serializeValue p.2))

/-- The replacer applied over a whole result set. -/
def serializeResult (rs : List Row) : List Row := rs.map serializeRow

/-- JSON trees, for the response payloads the session handler emits. -/
inductive Json where
  | null
  | bool (b : Bool)
  | num (n : Int)
  | str (s : String)
  | arr (xs : List Json)
  | obj (fields : List (String × Json))

/-- Conversion of a scalar into JSON, as `JSON.stringify` performs it inside
the response body: a raw `bigint` has no JSON representation and makes
`JSON.stringify` throw a `TypeError`. -/
def valueToJson : Value → Except String Json
  | .vNull => .ok .null
  | .vBool b => .ok (.bool b)
  | .vNum n => .ok (.num n)
  | .vStr s => .ok (.str s)
  | .vBigInt _ => .error "Do not know how to serialize a BigInt"

/-- A result row as a JSON object. -/
def rowToJson : Row → Except String Json
  | r => (r.mapM (fun p => (valueToJson p.2).map (fun j => (p.1, j)))).map .obj

/-- A result set as a JSON array of row objects. -/
def resultToJson (rs : List Row) : Except String Json :=
  (rs.mapM rowToJson).map .arr

/-- Minimal JSON string escaping (quote, backslash, newline). -/
def escapeChar (c : Char) : String :=
  if c = '"' then "\\\""
  else if c = '\\' then "\\\\"
  else if c = '\n' then "\\n"
  else String.singleton c

/-- Escape a string for inclusion in JSON text. -/
def escapeString (s : String) : String :=
  String.join (s.data.map escapeChar)

mutual

/-- Compact rendering of a JSON tree to text, standing for the
`JSON.stringify(result, null, 2)` call in the `tools/call` response body
(the pretty-printing indentation is elided; no claim inspects it). -/
def renderJson : Json → String
  | .null => "null"
  | .bool b => if b then "true" else "false"
  | .num n => toString n
  | .str s => "\"" ++ escapeString s ++ "\""
  | .arr xs => "[" ++ renderArr xs ++ "]"
  | .obj fs => "\x7b" ++ renderObj fs ++ "\x7d"

/-- Render a comma-separated JSON array body. -/
def renderArr : List Json → String
  | [] => ""
  | x :: rest =>
    renderJson x ++ (if rest.isEmpty then "" else ",") ++ renderArr rest

/-- Render a comma-separated JSON object body. -/
def renderObj : List (String × Json) → String
  | [] => ""
  | (k, v) :: rest =>
    "\"" ++ escapeString k ++ "\":" ++ renderJson v
      ++ (if rest.isEmpty then "" else ",") ++ renderObj rest

end

/-- A JSON-RPC response object as written by `sendResponse`/`sendError`
(stdio-server.ts 300-316): the echoed `id` plus either a `result` or an
`error` member (the `jsonrpc: "2.0"` tag is constant and elided). -/
structure Response where
  id : Json
  result : Option Json
  error : Option (Int × String)

/-- `sendResponse(id, result)`: emits `{jsonrpc, id, result}`. -/
def sendResponse (id : Json) (result : Json) : Response :=
  ⟨id, some result, none⟩

/-- `sendError(id, code, message)`: emits `{jsonrpc, id, error: {code,
message}}`. -/
def sendError (id : Json) (code : Int) (msg : String) : Response :=
  ⟨id, none, some (code, msg)⟩

/-- Typed rendering of `params.arguments` for each tool (the JS code reads
these fields off a raw JSON object). -/
inductive ToolArgs where
  | queryArgs (query : String) (params : Option (List Value))
  | crudArgs (operation table : String) (data : Option ConstraintSet)
      (whereArg : Option ConstraintSet)
  | schemaArgs (table : Option String)
  | noArgs

/-- `message.params` of a `tools/call` request: `{name, arguments}`. -/
structure CallParams where
  name : String
  args : ToolArgs

/-- A parsed JSON-RPC request envelope `{jsonrpc, id, method, params}`;
`params = none` models an absent `params` member. -/
structure Message where
  jsonrpc : String
  id : Json
  method : String
  params : Option CallParams

/-- One `stdin` data event: either malformed JSON (where `JSON.parse`
throws) or a parsed message. -/
inductive Input where
  | malformed
  | msg (m : Message)

/-- The `initialize` result object (stdio-server.ts 29-40). -/
def initResult : Json :=
  .obj [("protocolVersion", .str "2024-11-05"),
    ("capabilities", .obj [("tools", .obj [("listChanged", .bool false)])]),
    ("serverInfo", .obj [("name", .str "erp-mcp-server"),
      ("version", .str "1.0.0")])]

/-- Descriptor of the `query_database` tool (stdio-server.ts 46-68). -/
def queryDatabaseTool : Json :=
  .obj [("name", .str "query_database"),
    ("description", .str "Execute raw SQL queries on the ERP database"),
    ("inputSchema", .obj [("type", .str "object"),
      ("properties", .obj [
        ("query", .obj [("type", .str "string"),
          ("description", .str "SQL query to execute")]),
        ("params", .obj [("type", .str "array"),
          ("items", .obj [("type", .str "string")]),
          ("description", .str "Query parameters"),
          ("default", .arr [])])]),
      ("required", .arr [.str "query"]),
      ("additionalProperties", .bool false)])]

/-- Descriptor of the `execute_crud` tool (stdio-server.ts 69-97). -/
def executeCrudTool : Json :=
  .obj [("name", .str "execute_crud"),
    ("description", .str
      "Perform CRUD operations (SELECT, INSERT, UPDATE, DELETE) on database tables"),
    ("inputSchema", .obj [("type", .str "object"),
      ("properties", .obj [
        ("operation", .obj [("type", .str "string"),
          ("enum", .arr [.str "select", .str "insert", .str "update",
            .str "delete"]),
          ("description", .str "CRUD operation type")]),
        ("table", .obj [("type", .str "string"),
          ("description", .str "Database table name")]),
        ("data", .obj [("type", .str "object"),
          ("description", .str "Data for INSERT/UPDATE operations")]),
        ("where", .obj [("type", .str "object"),
          ("description", .str
            "WHERE conditions for SELECT/UPDATE/DELETE operations")])]),
      ("required", .arr [.str "operation", .str "table"])])]

/-- Descriptor of the `get_schema` tool (stdio-server.ts 98-110). -/
def getSchemaTool : Json :=
  .obj [("name", .str "get_schema"),
    ("description", .str "Get database schema information"),
    ("inputSchema", .obj [("type", .str "object"),
      ("properties", .obj [
        ("table", .obj [("type", .str "string"),
          ("description", .str "Specific table name (optional)")])])])]

/-- Descriptor of the `list_tables` tool (stdio-server.ts 111-118). -/
def listTablesTool : Json :=
  .obj [("name", .str "list_tables"),
    ("description", .str "List all available database tables"),
    ("inputSchema", .obj [("type", .str "object"),
      ("properties", .obj [])])]

/-- The `tools/list` result object (stdio-server.ts 44-120). -/
def toolsListResult : Json :=
  .obj [("tools", .arr [queryDatabaseTool, executeCrudTool, getSchemaTool,
    listTablesTool])]

/-- The template literal of the per-table `get_schema` query
(stdio-server.ts 154-159), byte-for-byte including its indentation. -/
def getSchemaColumnsSql : String :=
  "\n                    SELECT column_name, data_type, is_nullable, column_default\n                    FROM information_schema.columns\n                    WHERE table_name = $1 AND table_schema = \x27public\x27\n                    ORDER BY ordinal_position\n                  "

/-- The template literal of the no-table `get_schema` query
(stdio-server.ts 163-168), byte-for-byte including its indentation. -/
def getSchemaTablesSql : String :=
  "\n                    SELECT table_name\n                    FROM information_schema.tables\n                    WHERE table_schema = \x27public\x27 AND table_type = \x27BASE TABLE\x27\n                    ORDER BY table_name\n                  "

/-- The template literal of the `list_tables` query (stdio-server.ts
173-178), byte-for-byte including its indentation (which differs from
`getSchemaTablesSql` only in leading whitespace). -/
def listTablesSql : String :=
  "\n                  SELECT table_name\n                  FROM information_schema.tables\n                  WHERE table_schema = \x27public\x27 AND table_type = \x27BASE TABLE\x27\n                  ORDER BY table_name\n                "

/-- Accumulator-based whitespace tokenizer over a character list. -/
def tokensAux : List Char → List Char → List String
  | [], cur => if cur.isEmpty then [] else [String.mk cur.reverse]
  | c :: rest, cur =>
    if c = ' ' || c = '\n' then
      if cur.isEmpty then tokensAux rest []
      else String.mk cur.reverse :: tokensAux rest []
    else tokensAux rest (c :: cur)

/-- SQL text split into whitespace-delimited tokens; two statements with the
same token list are the same SQL modulo insignificant whitespace. -/
def sqlTokens (s : String) : List String := tokensAux s.data []

/-- The tail of the `tools/call` success path: wrap the JSON-encoded payload
as `{content: [{type: "text", text: ...}]}` (stdio-server.ts 185-192). -/
def contentWrap (text : String) : Json :=
  .obj [("content", .arr [.obj [("type", .str "text"),
    ("text", .str text)]])]

/-- The gateway oracle: executes a typed fast-path call or a raw
parameterized statement against the store, returning rows or a thrown
error message. Stands for `prisma.$queryRawUnsafe` / `prisma.subject.*`. -/
abbrev Gateway := CrudAction → Except String (List Row)

/-- Encode gateway output as the `tools/call` response payload (no BigInt
conversion on this path — only `query_database` serializes). -/
def rowsToOutcome (x : Except String (List Row)) : Except String Json :=
  match x with
  | .error e => .error e
  | .ok rows =>
    match resultToJson rows with
    | .error e => .error e
    | .ok j => .ok (contentWrap (renderJson j))

/-- Like `rowsToOutcome` but applying the BigInt-to-string serialization
first (`query_database`, stdio-server.ts 130-140). -/
def serializedRowsToOutcome (x : Except String (List Row)) :
    Except String Json :=
  match x with
  | .error e => .error e
  | .ok rows =>
    match resultToJson (serializeResult rows) with
    | .error e => .error e
    | .ok j => .ok (contentWrap (renderJson j))

/-- The body of the inner `try` of `case "tools/call"` (stdio-server.ts
126-192): dispatch on the tool name and produce either the success payload
or the thrown error's message. Argument decoding from the raw JSON object is
rendered by the typed `ToolArgs`; a name that matches no tool throws
`Unknown tool: ${name}`. -/
def callOutcome (gw : Gateway) (now : Value) (p : CallParams) :
    Except String Json :=
  match p.name, p.args with
  | "query_database", .queryArgs q ps =>
    serializedRowsToOutcome (gw (.raw ⟨q, ps.getD []⟩))
  | "execute_crud", .crudArgs op t d w =>
    match handleCrudOperation op t d w now with
    | .error e => .error e
    | .ok act => rowsToOutcome (gw act)
  | "get_schema", .schemaArgs targ =>
    (match targ with
     | some t =>
       if t = "" then rowsToOutcome (gw (.raw ⟨getSchemaTablesSql, []⟩))
       else rowsToOutcome (gw (.raw ⟨getSchemaColumnsSql, [.vStr t]⟩))
     | none => rowsToOutcome (gw (.raw ⟨getSchemaTablesSql, []⟩)))
  | "list_tables", _ => rowsToOutcome (gw (.raw ⟨listTablesSql, []⟩))
  | n, _ => .error ("Unknown tool: " ++ n)

/-- Emission step after the inner `try`: success goes through
`sendResponse(message.id, ...)`, a caught error through
`sendError(message.id, -32603, ...)` (stdio-server.ts 185-199). -/
def respond (id : Json) : Except String Json → Response
  | .ok j => sendResponse id j
  | .error e => sendError id (-32603) e

/-- The complete `tools/call` handling for one request. -/
def handleToolCall (gw : Gateway) (now : Value) (id : Json)
    (p : CallParams) : Response :=
  respond id (callOutcome gw now p)

/-- One full turn of the session handler (`stdin.on("data", ...)`,
stdio-server.ts 18-208), returning the list of response objects written to
stdout for this input. Malformed JSON reaches the outer `catch`
(`sendError(null, -32700, "Parse error")`); so does the `TypeError` thrown
by destructuring `message.params` when a `tools/call` request carries no
`params`. A wrong `jsonrpc` tag yields -32600, an unknown method -32601. -/
def handleInput (gw : Gateway) (now : Value) : Input → List Response
  | .malformed => [sendError .null (-32700) "Parse error"]
  | .msg m =>
    if m.jsonrpc ≠ "2.0" then [sendError m.id (-32600) "Invalid Request"]
    else if m.method = "initialize" then [sendResponse m.id initResult]
    else if m.method = "tools/list" then [sendResponse m.id toolsListResult]
    else if m.method = "tools/call" then
      match m.params with
      | none => [sendError .null (-32700) "Parse error"]
      | some p => [handleToolCall gw now m.id p]
    else [sendError m.id (-32601) "Method not found"]

/-- A trivial concrete gateway (an empty store) used by the witnesses. -/
def gwEmpty : Gateway := fun _ => .ok []

example : sqlTokens listTablesSql = sqlTokens getSchemaTablesSql := by decide

example : handleInput gwEmpty .vNull .malformed
    = [sendError .null (-32700) "Parse error"] := rfl

example : handleInput gwEmpty .vNull
    (.msg ⟨"2.0", .num 1, "tools/call", some ⟨"list_tables", .noArgs⟩⟩)
    = [sendResponse (.num 1) (contentWrap "[]")] := rfl

/-! ## Helper lemmas -/

theorem handleCrud_select (table : String) (d w : Option ConstraintSet)
    (now : Value) :
    handleCrudOperation "select" table d w now = crudSelect table w := rfl

theorem handleCrud_insert (table : String) (d w : Option ConstraintSet)
    (now : Value) :
    handleCrudOperation "insert" table d w now = crudInsert table d now := rfl

theorem handleCrud_update (table : String) (d w : Option ConstraintSet)
    (now : Value) :
    handleCrudOperation "update" table d w now = crudUpdate table d w now :=
  rfl

theorem handleCrud_delete (table : String) (d w : Option ConstraintSet)
    (now : Value) :
    handleCrudOperation "delete" table d w now = crudDelete table w := rfl

theorem eqTerms_length (c : ConstraintSet) (off : Nat) :
    (eqTerms off c).length = c.length := by
  induction c generalizing off with
  | nil => rfl
  | cons p rest ih => simp [eqTerms, ih]

theorem eqTerms_get? (c : ConstraintSet) (off i : Nat) :
    (eqTerms off c).get? i
      = (c.get? i).map (fun p => p.1 ++ " = $" ++ toString (off + i + 1)) := by
  induction c generalizing off i with
  | nil => simp [eqTerms]
  | cons p rest ih =>
    cases i with
    | zero => simp [eqTerms]
    | succ j =>
      simp only [eqTerms, List.get?]
      rw [ih]
      have harith : off + 1 + j + 1 = off + (j + 1) + 1 := by omega
      rw [harith]

theorem eqTerms_keys_only (c₁ c₂ : ConstraintSet) (off : Nat)
    (h : c₁.map Prod.fst = c₂.map Prod.fst) :
    eqTerms off c₁ = eqTerms off c₂ := by
  induction c₁ generalizing c₂ off with
  | nil => cases c₂ with
    | nil => rfl
    | cons q r => simp at h
  | cons p rest ih =>
    cases c₂ with
    | nil => simp at h
    | cons q r =>
      simp only [List.map_cons, List.cons.injEq] at h
      simp [eqTerms, h.1, ih r (off + 1) h.2]

theorem string_ne_append_of_ne_empty (a b : String) (h : b.length ≠ 0) :
    a ≠ a ++ b := by
  intro he
  have hl := congrArg String.length he
  rw [String.length_append] at hl
  omega

/-! ## Claims C1, C2, C3, C10 -/

/-- C1 counterexample: at the concrete input `execute_crud(update, students,
data = {name: "x"}, where = {})` the operation does NOT fail with
`MissingPrecondition`: it succeeds in building a raw UPDATE statement (with
a bare `WHERE` and no condition) that is passed to the database gateway;
likewise for `execute_crud(delete, students, where = {})`. -/
theorem c1_counterexample :
    handleCrudOperation "update" "students" (some [("name", Value.vStr "x")])
        (some []) (Value.vStr "T")
      = .ok (.raw ⟨"UPDATE students SET name = $1 WHERE  RETURNING *",
        [Value.vStr "x"]⟩)
    ∧ handleCrudOperation "delete" "students" none (some []) (Value.vStr "T")
      = .ok (.raw ⟨"DELETE FROM students WHERE  RETURNING *", []⟩) :=
  ⟨rfl, rfl⟩

/-- C1 (amended): `handleCrudOperation` has no destructive-operation guard:
for every non-`subjects` table, an update with any `data` and an empty
`where` object, and a delete with an empty `where` object, do not fail —
each builds a raw statement whose text contains the bare keyword `WHERE`
followed by no condition, and hands it to the database gateway. -/
theorem c1_no_missing_precondition_guard
    (table : String) (d : ConstraintSet) (now : Value)
    (h : table ≠ "subjects") :
    handleCrudOperation "update" table (some d) (some []) now
      = .ok (.raw ⟨"UPDATE " ++ table ++ " SET "
          ++ String.intercalate ", " (eqTerms 0 d) ++ " " ++ "WHERE "
          ++ " RETURNING *", d.map Prod.snd⟩)
    ∧ handleCrudOperation "delete" table none (some []) now
      = .ok (.raw ⟨"DELETE FROM " ++ table ++ " " ++ "WHERE "
          ++ " RETURNING *", []⟩) := by
  constructor
  · rw [handleCrud_update]
    unfold crudUpdate
    rw [if_neg h]
    simp [whereClause, valuesOfOpt, eqTerms, String.intercalate]
  · rw [handleCrud_delete]
    unfold crudDelete
    rw [if_neg h]
    simp [whereClause, valuesOfOpt, eqTerms, String.intercalate]

/-- C1 witness: the amended theorem applied at a concrete input. -/
theorem c1_witness :
    handleCrudOperation "update" "teachers" (some [("a", Value.vNum 1)])
        (some []) Value.vNull
      = .ok (.raw ⟨"UPDATE teachers SET a = $1 WHERE  RETURNING *",
        [Value.vNum 1]⟩) := by
  have h := (c1_no_missing_precondition_guard "teachers"
    [("a", Value.vNum 1)] Value.vNull (by decide)).1
  simpa [eqTerms, String.intercalate] using h

/-- C2 counterexample: the table string `"students; DROP TABLE x"` contains
a space and a semicolon, yet no `InvalidIdentifier` (nor any other) error is
raised — the string is interpolated verbatim into the emitted SQL text. -/
theorem c2_counterexample :
    handleCrudOperation "select" "students; DROP TABLE x" none none
        Value.vNull
      = .ok (.raw ⟨"SELECT * FROM students; DROP TABLE x ", []⟩) := rfl

/-- C2 (amended): no identifier validation is performed anywhere on the CRUD
path: every caller-supplied table string — whether or not it matches
letters/digits/underscore syntax — is interpolated verbatim into the SQL
text with no error. The value half of the claim does hold: caller-supplied
values are only ever passed in the positional-parameter list (the SQL text
is a function of the column names alone), never interpolated. -/
theorem c2_identifiers_interpolated_values_bound
    (table : String) (w : ConstraintSet) (now : Value)
    (h : table ≠ "subjects") :
    handleCrudOperation "select" table none (some w) now
      = .ok (.raw ⟨"SELECT * FROM " ++ table ++ " "
          ++ ("WHERE " ++ String.intercalate " AND " (eqTerms 0 w)),
          w.map Prod.snd⟩)
    ∧ ∀ (w₂ : ConstraintSet) (off : Nat), w.map Prod.fst = w₂.map Prod.fst →
        eqTerms off w = eqTerms off w₂ := by
  constructor
  · rw [handleCrud_select]
    unfold crudSelect
    rw [if_neg h]
    simp [whereClause, valuesOfOpt]
  · intro w₂ off hk
    exact eqTerms_keys_only w w₂ off hk

/-- C2 witness: the amended theorem applied at a concrete input. -/
theorem c2_witness :
    handleCrudOperation "select" "teachers" none
        (some [("grade", Value.vStr "A")]) Value.vNull
      = .ok (.raw ⟨"SELECT * FROM teachers WHERE grade = $1",
        [Value.vStr "A"]⟩) := by
  have h := (c2_identifiers_interpolated_values_bound "teachers"
    [("grade", Value.vStr "A")] Value.vNull (by decide)).1
  simpa [eqTerms, String.intercalate] using h

/-- C3: the WHERE-fragment builder emits, for a constraint set `c` and
offset `off` (start index `k = off + 1`), exactly `c.length` equality terms
in insertion order with contiguous placeholder indices `off+1 .. off+n`,
joined with `AND`; and in an UPDATE the emitted statement is `UPDATE t SET
<terms at offset 0> WHERE <terms at offset |data|> RETURNING *` — the WHERE
placeterms continue right after the SET fragment's last index — with the
gateway values being exactly the SET values followed by the WHERE values. -/
theorem c3_where_fragment_contiguous
    (c : ConstraintSet) (off i : Nat) :
    ((eqTerms off c).length = c.length
      ∧ (eqTerms off c).get? i
          = (c.get? i).map (fun p => p.1 ++ " = $" ++ toString (off + i + 1))
      ∧ whereClause (some c) off
          = "WHERE " ++ String.intercalate " AND " (eqTerms off c))
    ∧ ∀ (table : String) (d w : ConstraintSet) (now : Value),
        table ≠ "subjects" →
        handleCrudOperation "update" table (some d) (some w) now
          = .ok (.raw ⟨"UPDATE " ++ table ++ " SET "
              ++ String.intercalate ", " (eqTerms 0 d) ++ " "
              ++ ("WHERE " ++ String.intercalate " AND " (eqTerms d.length w))
              ++ " RETURNING *",
              d.map Prod.snd ++ w.map Prod.snd⟩) := by
  refine ⟨⟨eqTerms_length c off, eqTerms_get? c off i, rfl⟩, ?_⟩
  intro table d w now h
  rw [handleCrud_update]
  unfold crudUpdate
  rw [if_neg h]
  simp [whereClause, valuesOfOpt]

/-- C3 witness: the theorem applied at a concrete constraint set and a
concrete UPDATE request (two SET columns, then WHERE continues at `$3`). -/
theorem c3_witness :
    handleCrudOperation "update" "students"
        (some [("name", Value.vStr "n"), ("grade", Value.vStr "A")])
        (some [("id", Value.vNum 7)]) Value.vNull
      = .ok (.raw
        ⟨"UPDATE students SET name = $1, grade = $2 WHERE id = $3 RETURNING *",
          [Value.vStr "n", Value.vStr "A", Value.vNum 7]⟩) := by
  have h := (c3_where_fragment_contiguous [] 0 0).2 "students"
    [("name", Value.vStr "n"), ("grade", Value.vStr "A")]
    [("id", Value.vNum 7)] Value.vNull (by decide)
  simpa [eqTerms, String.intercalate] using h

/-- C10: on the generic CRUD path an absent `where` and a present-but-empty
`where` object are NOT treated alike: absent yields a statement with no
WHERE clause at all (the fragment is `""`), while the empty object — being
truthy in JS — yields SQL text containing the bare keyword `WHERE ` followed
by an empty condition, for select, update and delete alike; the two
statements always differ. -/
theorem c10_empty_vs_absent_where
    (table : String) (d : ConstraintSet) (now : Value)
    (h : table ≠ "subjects") :
    (handleCrudOperation "select" table none none now
      = .ok (.raw ⟨"SELECT * FROM " ++ table ++ " ", []⟩))
    ∧ (handleCrudOperation "select" table none (some []) now
      = .ok (.raw ⟨"SELECT * FROM " ++ table ++ " " ++ "WHERE ", []⟩))
    ∧ (handleCrudOperation "update" table (some d) none now
      = .ok (.raw ⟨"UPDATE " ++ table ++ " SET "
          ++ String.intercalate ", " (eqTerms 0 d) ++ " "
          ++ " RETURNING *", d.map Prod.snd⟩))
    ∧ (handleCrudOperation "update" table (some d) (some []) now
      = .ok (.raw ⟨"UPDATE " ++ table ++ " SET "
          ++ String.intercalate ", " (eqTerms 0 d) ++ " " ++ "WHERE "
          ++ " RETURNING *", d.map Prod.snd⟩))
    ∧ (handleCrudOperation "delete" table none none now
      = .ok (.raw ⟨"DELETE FROM " ++ table ++ " " ++ " RETURNING *", []⟩))
    ∧ (handleCrudOperation "delete" table none (some []) now
      = .ok (.raw ⟨"DELETE FROM " ++ table ++ " " ++ "WHERE "
          ++ " RETURNING *", []⟩))
    ∧ ("SELECT * FROM " ++ table ++ " "
        ≠ "SELECT * FROM " ++ table ++ " " ++ "WHERE ")
    ∧ whereClause none 0 = "" ∧ whereClause (some []) 0 = "WHERE " := by
  refine ⟨?_, ?_, ?_, ?_, ?_, ?_, ?_, rfl, rfl⟩
  · rw [handleCrud_select]; unfold crudSelect; rw [if_neg h]
    simp [whereClause, valuesOfOpt]
  · rw [handleCrud_select]; unfold crudSelect; rw [if_neg h]
    simp [whereClause, valuesOfOpt, eqTerms, String.intercalate]
  · rw [handleCrud_update]; unfold crudUpdate; rw [if_neg h]
    simp [whereClause, valuesOfOpt]
  · rw [handleCrud_update]; unfold crudUpdate; rw [if_neg h]
    simp [whereClause, valuesOfOpt, eqTerms, String.intercalate]
  · rw [handleCrud_delete]; unfold crudDelete; rw [if_neg h]
    simp [whereClause, valuesOfOpt]
  · rw [handleCrud_delete]; unfold crudDelete; rw [if_neg h]
    simp [whereClause, valuesOfOpt, eqTerms, String.intercalate]
  · exact string_ne_append_of_ne_empty _ "WHERE " (by decide)

/-- C10 witness: the theorem applied at a concrete table, exhibiting the
two different select statements. -/
theorem c10_witness :
    handleCrudOperation "select" "exams" none none Value.vNull
      = .ok (.raw ⟨"SELECT * FROM exams ", []⟩)
    ∧ handleCrudOperation "select" "exams" none (some []) Value.vNull
      = .ok (.raw ⟨"SELECT * FROM exams WHERE ", []⟩) := by
  have h := c10_empty_vs_absent_where "exams" [] Value.vNull (by decide)
  exact ⟨by simpa using h.1, by simpa using h.2.1⟩

/-- C4: in every serialized result row, an integer-typed (`bigint`) value
whose magnitude exceeds the safe JSON integer range `2^53 - 1` is emitted as
its decimal text, not as a JSON number; in particular the 64-bit integer
`9223372036854775807` serializes to the text `"9223372036854775807"`. -/
theorem c4_bigint_beyond_safe_range_as_text :
    (∀ (r : Row) (k : String) (n : Int), (k, Value.vBigInt n) ∈ r →
        (9007199254740991 : Nat) < n.natAbs →
        (k, Value.vStr (toString n)) ∈ serializeRow r)
    ∧ serializeValue (Value.vBigInt 9223372036854775807)
        = Value.vStr "9223372036854775807" := by
  constructor
  · intro r k n hmem _
    have h : ((fun p => (p.1, serializeValue p.2)) (k, Value.vBigInt n))
        ∈ serializeRow r := List.mem_map_of_mem _ hmem
    exact h
  · rfl

/-- C4 witness: the theorem applied at a concrete one-column row holding
`INT64_MAX`. -/
theorem c4_witness :
    ("big", Value.vStr "9223372036854775807")
      ∈ serializeRow [("big", Value.vBigInt 9223372036854775807)] := by
  have h := c4_bigint_beyond_safe_range_as_text.1
    [("big", Value.vBigInt 9223372036854775807)] "big" 9223372036854775807
    (by simp) (by decide)
  simpa using h

/-- C9: the serializer converts every `bigint` value to decimal text
regardless of magnitude — integers well inside the safe JSON range are
converted too: `1` becomes the text `"1"`, for every value in every result
row. -/
theorem c9_bigint_always_text :
    (∀ n : Int, serializeValue (Value.vBigInt n) = Value.vStr (toString n))
    ∧ (∀ (r : Row) (k : String) (n : Int), (k, Value.vBigInt n) ∈ r →
        (k, Value.vStr (toString n)) ∈ serializeRow r)
    ∧ serializeValue (Value.vBigInt 1) = Value.vStr "1" := by
  refine ⟨fun n => rfl, ?_, rfl⟩
  intro r k n hmem
  have h : ((fun p => (p.1, serializeValue p.2)) (k, Value.vBigInt n))
      ∈ serializeRow r := List.mem_map_of_mem _ hmem
  exact h

/-- C9 witness: a `bigint` value of `1` — far inside the safe range — is
still serialized as the text `"1"`. -/
theorem c9_witness :
    ("count", Value.vStr "1") ∈ serializeRow [("count", Value.vBigInt 1)] := by
  have h := c9_bigint_always_text.2.1 [("count", Value.vBigInt 1)] "count" 1
    (by simp)
  simpa using h

/-! ## Lookup lemmas for the insert fast path -/

theorem lookupCS_append (m l : ConstraintSet) (k : String) :
    lookupCS (m ++ l) k
      = match lookupCS m k with
        | some v => some v
        | none => lookupCS l k := by
  induction m with
  | nil => simp [lookupCS]
  | cons p rest ih =>
    by_cases hp : p.1 = k
    · simp [lookupCS, hp]
    · simp [lookupCS, hp, ih]

theorem lookupCS_map_replace (m : ConstraintSet) (k : String) (v : Value) :
    lookupCS (m.map (fun p => if p.1 = k then (k, v) else p)) k
      = (lookupCS m k).map (fun _ => v) := by
  induction m with
  | nil => simp [lookupCS]
  | cons p rest ih =>
    by_cases hp : p.1 = k
    · simp [lookupCS, hp]
    · simp [lookupCS, hp, ih]

theorem lookupCS_setProp_same (m : ConstraintSet) (k : String) (v : Value) :
    lookupCS (setProp m k v) k = some v := by
  unfold setProp
  by_cases hs : (lookupCS m k).isSome
  · rw [if_pos hs, lookupCS_map_replace]
    obtain ⟨x, hx⟩ := Option.isSome_iff_exists.mp hs
    simp [hx]
  · rw [if_neg hs, lookupCS_append]
    have hn : lookupCS m k = none := Option.not_isSome_iff_eq_none.mp hs
    simp [hn, lookupCS]

theorem lookupCS_map_replace_other (m : ConstraintSet) (k k₂ : String)
    (v : Value) (h : k₂ ≠ k) :
    lookupCS (m.map (fun p => if p.1 = k then (k, v) else p)) k₂
      = lookupCS m k₂ := by
  have hk : ¬ (k = k₂) := fun he => h he.symm
  induction m with
  | nil => simp [lookupCS]
  | cons p rest ih =>
    by_cases hp : p.1 = k
    · have hp₂ : ¬ (p.1 = k₂) := by rw [hp]; exact hk
      simp [lookupCS, hp, hp₂, hk, ih]
    · by_cases hq : p.1 = k₂ <;> simp [lookupCS, hp, hq, hk, h, ih]

theorem lookupCS_setProp_other (m : ConstraintSet) (k k₂ : String) (v : Value)
    (h : k₂ ≠ k) :
    lookupCS (setProp m k v) k₂ = lookupCS m k₂ := by
  have hk : ¬ (k = k₂) := fun he => h he.symm
  unfold setProp
  by_cases hs : (lookupCS m k).isSome
  · rw [if_pos hs]
    exact lookupCS_map_replace_other m k k₂ v h
  · rw [if_neg hs, lookupCS_append]
    cases hl : lookupCS m k₂ with
    | some x => simp [hl]
    | none => simp [hl, lookupCS, hk]

/-- C7: `execute_crud` insert. For the allow-listed table `subjects` the
typed fast path is taken and default `createdAt`/`updatedAt` timestamps are
supplied when absent from `data`; for every other table the generic insert
fragment is built verbatim — its column list is exactly `data`'s keys, no
implicit default columns are added — with `RETURNING *` and the values
passed as bound parameters. -/
theorem c7_insert_fast_path_defaults :
    (∀ (d : ConstraintSet) (w : Option ConstraintSet) (now : Value),
        handleCrudOperation "insert" "subjects" (some d) w now
          = .ok (.fastInsert (withTimestamps d now)))
    ∧ (∀ (d : ConstraintSet) (now : Value),
        lookupCS d "createdAt" = none →
        lookupCS (withTimestamps d now) "createdAt" = some now)
    ∧ (∀ (d : ConstraintSet) (now : Value),
        lookupCS d "updatedAt" = none →
        lookupCS (withTimestamps d now) "updatedAt" = some now)
    ∧ (∀ (table : String) (d : ConstraintSet) (w : Option ConstraintSet)
        (now : Value), table ≠ "subjects" →
        handleCrudOperation "insert" table (some d) w now
          = .ok (.raw ⟨"INSERT INTO " ++ table ++ " ("
              ++ String.intercalate ", " (d.map Prod.fst) ++ ") VALUES ("
              ++ String.intercalate ", " (dollars 0 d.length)
              ++ ") RETURNING *", d.map Prod.snd⟩)) := by
  refine ⟨?_, ?_, ?_, ?_⟩
  · intro d w now
    rw [handleCrud_insert]
    rfl
  · intro d now hab
    unfold withTimestamps
    rw [lookupCS_setProp_other _ _ _ _ (by decide), lookupCS_setProp_same]
    simp [jsOr, hab]
  · intro d now hab
    unfold withTimestamps
    rw [lookupCS_setProp_same]
    simp [jsOr, hab]
  · intro table d w now h
    rw [handleCrud_insert]
    unfold crudInsert
    rw [if_neg h]

/-- C7 witness: the theorem applied at concrete inputs — a `subjects` insert
with no timestamps in `data` gets both defaults; a generic insert has
exactly the caller's columns. -/
theorem c7_witness :
    handleCrudOperation "insert" "subjects" (some [("code", Value.vStr "M1")])
        none (Value.vStr "NOW")
      = .ok (.fastInsert [("code", Value.vStr "M1"),
          ("createdAt", Value.vStr "NOW"), ("updatedAt", Value.vStr "NOW")])
    ∧ lookupCS (withTimestamps [("code", Value.vStr "M1")] (Value.vStr "NOW"))
        "createdAt" = some (Value.vStr "NOW")
    ∧ handleCrudOperation "insert" "teachers" (some [("name", Value.vStr "t")])
        none Value.vNull
      = .ok (.raw ⟨"INSERT INTO teachers (name) VALUES ($1) RETURNING *",
          [Value.vStr "t"]⟩) := by
  refine ⟨?_, ?_, ?_⟩
  · have h := c7_insert_fast_path_defaults.1 [("code", Value.vStr "M1")] none
      (Value.vStr "NOW")
    simpa [withTimestamps, setProp, lookupCS, jsOr, truthy] using h
  · exact c7_insert_fast_path_defaults.2.1 [("code", Value.vStr "M1")]
      (Value.vStr "NOW") rfl
  · have h := c7_insert_fast_path_defaults.2.2.2 "teachers"
      [("name", Value.vStr "t")] none Value.vNull (by decide)
    simpa [dollars, String.intercalate] using h

/-- For the record (not itself one of the claims): the REST endpoint
`POST /api/mcp/execute` in index.ts (lines 476-516) — a separate surface
that is NOT the `execute_crud` tool — behaves differently on generic
inserts: when `data` lacks `createdAt`/`updatedAt` it appends quoted
`"createdAt"`/`"updatedAt"` columns with `NOW()` placeholders to the
fragment. Modelled here so the divergence is explicit. -/
def apiMcpExecuteInsertSql (tableName : String) (d : ConstraintSet) : String :=
  let columns := String.intercalate ", " (d.map Prod.fst)
  let placeholders := String.intercalate ", " (dollars 0 d.length)
  let columns₂ := if (lookupCS d "createdAt").isSome then columns
    else columns ++ ", \"createdAt\""
  let placeholders₂ := if (lookupCS d "createdAt").isSome then placeholders
    else placeholders ++ ", NOW()"
  let columns₃ := if (lookupCS d "updatedAt").isSome then columns₂
    else columns₂ ++ ", \"updatedAt\""
  let placeholders₃ := if (lookupCS d "updatedAt").isSome then placeholders₂
    else placeholders₂ ++ ", NOW()"
  "INSERT INTO " ++ tableName ++ " (" ++ columns₃ ++ ") VALUES ("
    ++ placeholders₃ ++ ") RETURNING *"

/-- The REST `/api/mcp/execute` insert DOES add implicit default columns —
contrast with `c7_insert_fast_path_defaults`. -/
theorem apiMcpExecute_insert_adds_timestamps :
    apiMcpExecuteInsertSql "teachers" [("name", Value.vStr "t")]
      = "INSERT INTO teachers (name, \"createdAt\", \"updatedAt\") VALUES ($1, NOW(), NOW()) RETURNING *" :=
  rfl

/-! ## Session-handler lemmas and claims C5, C6, C8 -/

/-- A response carries exactly one of `result` / `error`. -/
def oneOf (r : Response) : Prop :=
  (r.result.isSome ∧ r.error = none) ∨ (r.result = none ∧ r.error.isSome)

theorem oneOf_sendResponse (id : Json) (j : Json) :
    oneOf (sendResponse id j) := Or.inl ⟨rfl, rfl⟩

theorem oneOf_sendError (id : Json) (c : Int) (m : String) :
    oneOf (sendError id c m) := Or.inr ⟨rfl, rfl⟩

theorem respond_oneOf (id : Json) (x : Except String Json) :
    oneOf (respond id x) := by
  cases x with
  | ok j => exact oneOf_sendResponse id j
  | error e => exact oneOf_sendError id (-32603) e

theorem respond_id (id : Json) (x : Except String Json) :
    (respond id x).id = id := by
  cases x <;> rfl

theorem handleToolCall_oneOf (gw : Gateway) (now : Value) (id : Json)
    (p : CallParams) : oneOf (handleToolCall gw now id p) :=
  respond_oneOf id (callOutcome gw now p)

theorem handleToolCall_id (gw : Gateway) (now : Value) (id : Json)
    (p : CallParams) : (handleToolCall gw now id p).id = id :=
  respond_id id (callOutcome gw now p)

/-- C5 counterexample: a syntactically valid request with `id = 7`, method
`tools/call` and NO `params` member is processed yet its single response
carries a null id — the id is not echoed (destructuring `message.params`
throws, and the outer catch answers with `sendError(null, -32700, ...)`). -/
theorem c5_counterexample :
    handleInput gwEmpty Value.vNull
        (.msg ⟨"2.0", .num 7, "tools/call", none⟩)
      = [sendError .null (-32700) "Parse error"]
    ∧ Json.null ≠ Json.num 7 :=
  ⟨rfl, fun h => Json.noConfusion h⟩

/-- C5 (amended): every input produces exactly one response, and each
response carries exactly one of `result` / `error`; the request's id is
echoed verbatim for every parsed request EXCEPT when evaluation throws
outside the tool-call handler — i.e. a `tools/call` without `params`, which
is answered with a parse-error response bearing a null id. -/
theorem c5_single_response_one_of (gw : Gateway) (now : Value) (inp : Input) :
    (handleInput gw now inp).length = 1
    ∧ (∀ r, r ∈ handleInput gw now inp → oneOf r)
    ∧ (∀ m, inp = Input.msg m → (m.method = "tools/call" → m.params ≠ none) →
        ∀ r, r ∈ handleInput gw now inp → r.id = m.id) := by
  cases inp with
  | malformed =>
    refine ⟨rfl, ?_, ?_⟩
    · intro r hr
      rw [show handleInput gw now .malformed
        = [sendError .null (-32700) "Parse error"] from rfl,
        List.mem_singleton] at hr
      rw [hr]; exact oneOf_sendError _ _ _
    · intro m hm; exact absurd hm (by intro h; cases h)
  | msg m =>
    have finish : ∀ (x : Response), handleInput gw now (.msg m) = [x] →
        oneOf x → (x.id = m.id ∨ ¬ (m.method = "tools/call" → m.params ≠ none)) →
        (handleInput gw now (.msg m)).length = 1
        ∧ (∀ r, r ∈ handleInput gw now (.msg m) → oneOf r)
        ∧ (∀ m₂, Input.msg m = Input.msg m₂ →
            (m₂.method = "tools/call" → m₂.params ≠ none) →
            ∀ r, r ∈ handleInput gw now (.msg m) → r.id = m₂.id) := by
      intro x e hone hid
      refine ⟨by rw [e]; rfl, ?_, ?_⟩
      · intro r hr; rw [e, List.mem_singleton] at hr; rw [hr]; exact hone
      · intro m₂ hm hreq r hr
        cases hm
        rw [e, List.mem_singleton] at hr; rw [hr]
        cases hid with
        | inl h => exact h
        | inr h => exact absurd hreq h
    by_cases hj : m.jsonrpc = "2.0"
    · by_cases h₁ : m.method = "initialize"
      · have e : handleInput gw now (.msg m) = [sendResponse m.id initResult] := by
          simp only [handleInput]
          rw [if_neg (not_not_intro hj), if_pos h₁]
        exact finish _ e (oneOf_sendResponse _ _) (Or.inl rfl)
      · by_cases h₂ : m.method = "tools/list"
        · have e : handleInput gw now (.msg m)
              = [sendResponse m.id toolsListResult] := by
            simp only [handleInput]
            rw [if_neg (not_not_intro hj), if_neg h₁, if_pos h₂]
          exact finish _ e (oneOf_sendResponse _ _) (Or.inl rfl)
        · by_cases h₃ : m.method = "tools/call"
          · cases hp : m.params with
            | none =>
              have e : handleInput gw now (.msg m)
                  = [sendError .null (-32700) "Parse error"] := by
                simp only [handleInput]
                rw [if_neg (not_not_intro hj), if_neg h₁, if_neg h₂,
                  if_pos h₃, hp]
              exact finish _ e (oneOf_sendError _ _ _)
                (Or.inr (fun hreq => absurd hp (hreq h₃)))
            | some p =>
              have e : handleInput gw now (.msg m)
                  = [handleToolCall gw now m.id p] := by
                simp only [handleInput]
                rw [if_neg (not_not_intro hj), if_neg h₁, if_neg h₂,
                  if_pos h₃, hp]
              exact finish _ e (handleToolCall_oneOf gw now m.id p)
                (Or.inl (handleToolCall_id gw now m.id p))
          · have e : handleInput gw now (.msg m)
                = [sendError m.id (-32601) "Method not found"] := by
              simp only [handleInput]
              rw [if_neg (not_not_intro hj), if_neg h₁, if_neg h₂, if_neg h₃]
            exact finish _ e (oneOf_sendError _ _ _) (Or.inl rfl)
    · have e : handleInput gw now (.msg m)
          = [sendError m.id (-32600) "Invalid Request"] := by
        simp only [handleInput]
        rw [if_pos hj]
      exact finish _ e (oneOf_sendError _ _ _) (Or.inl rfl)

/-- C5 witness: the amended theorem applied to a concrete `initialize`
request with id 3 — one response, well-formed, id echoed. -/
theorem c5_witness :
    (handleInput gwEmpty Value.vNull
        (.msg ⟨"2.0", .num 3, "initialize", none⟩)).length = 1
    ∧ ∀ r, r ∈ handleInput gwEmpty Value.vNull
        (.msg ⟨"2.0", .num 3, "initialize", none⟩) → r.id = .num 3 := by
  have h := c5_single_response_one_of gwEmpty Value.vNull
    (.msg ⟨"2.0", .num 3, "initialize", none⟩)
  exact ⟨h.1, fun r hr => h.2.2 _ rfl (fun hc => absurd hc (by decide)) r hr⟩

/-- C6: the session handler's stable error codes — malformed JSON yields
-32700 with a null id; a parsed envelope whose `jsonrpc` tag is not the
literal `"2.0"` yields -32600; a well-tagged envelope with an unrecognized
method yields -32601; in each case the message text is the fixed literal of
the source. -/
theorem c6_error_codes (gw : Gateway) (now : Value) :
    handleInput gw now .malformed = [sendError .null (-32700) "Parse error"]
    ∧ (∀ m : Message, m.jsonrpc ≠ "2.0" →
        handleInput gw now (.msg m)
          = [sendError m.id (-32600) "Invalid Request"])
    ∧ (∀ m : Message, m.jsonrpc = "2.0" → m.method ≠ "initialize" →
        m.method ≠ "tools/list" → m.method ≠ "tools/call" →
        handleInput gw now (.msg m)
          = [sendError m.id (-32601) "Method not found"]) := by
  refine ⟨rfl, ?_, ?_⟩
  · intro m hj
    simp only [handleInput]
    rw [if_pos hj]
  · intro m hj h₁ h₂ h₃
    simp only [handleInput]
    rw [if_neg (not_not_intro hj), if_neg h₁, if_neg h₂, if_neg h₃]

/-- C6 witness: the theorem applied at concrete envelopes — a wrong protocol
tag and an unknown method. -/
theorem c6_witness :
    handleInput gwEmpty Value.vNull (.msg ⟨"1.0", .num 2, "initialize", none⟩)
      = [sendError (.num 2) (-32600) "Invalid Request"]
    ∧ handleInput gwEmpty Value.vNull (.msg ⟨"2.0", .num 4, "shutdown", none⟩)
      = [sendError (.num 4) (-32601) "Method not found"] :=
  ⟨(c6_error_codes gwEmpty Value.vNull).2.1 _ (by decide),
   (c6_error_codes gwEmpty Value.vNull).2.2 _ rfl (by decide) (by decide)
     (by decide)⟩

/-- C8: `list_tables` and `get_schema` with no table argument issue SQL
texts that are identical token-for-token (they differ only in insignificant
whitespace), both with an empty parameter list; consequently, for every
gateway whose raw-statement semantics depends only on the SQL's token
sequence (as any SQL store's does) and every store state it encodes, the two
tool calls produce identical responses. -/
theorem c8_list_tables_equiv_get_schema (gw : Gateway) (now : Value)
    (id : Json) :
    sqlTokens listTablesSql = sqlTokens getSchemaTablesSql
    ∧ ((∀ s₁ s₂ : String, ∀ ps : List Value,
          sqlTokens s₁ = sqlTokens s₂ →
          gw (.raw ⟨s₁, ps⟩) = gw (.raw ⟨s₂, ps⟩)) →
        handleToolCall gw now id ⟨"list_tables", .noArgs⟩
          = handleToolCall gw now id ⟨"get_schema", .schemaArgs none⟩) := by
  constructor
  · decide
  · intro hgw
    have e : gw (.raw ⟨listTablesSql, []⟩) = gw (.raw ⟨getSchemaTablesSql, []⟩) :=
      hgw listTablesSql getSchemaTablesSql [] (by decide)
    rw [show handleToolCall gw now id ⟨"list_tables", .noArgs⟩
        = respond id (rowsToOutcome (gw (.raw ⟨listTablesSql, []⟩))) from rfl,
      show handleToolCall gw now id ⟨"get_schema", .schemaArgs none⟩
        = respond id (rowsToOutcome (gw (.raw ⟨getSchemaTablesSql, []⟩)))
        from rfl,
      e]

/-- C8 witness: the theorem applied at the concrete empty-store gateway,
whose output trivially depends only on the statement's tokens. -/
theorem c8_witness :
    handleToolCall gwEmpty Value.vNull (.num 1) ⟨"list_tables", .noArgs⟩
      = handleToolCall gwEmpty Value.vNull (.num 1)
        ⟨"get_schema", .schemaArgs none⟩ :=
  (c8_list_tables_equiv_get_schema gwEmpty Value.vNull (.num 1)).2
    (fun _ _ _ _ => rfl)

end SihErp
